import Mathlib

/-!
Verification of the twimp dispatch layer (`twimp/dispatch.py`).

A shallow embedding of the command/event dispatch machinery of the twimp
RTMP library: transaction-id allocation and pending-call tracking
(`DeferredTracker`), status-event waiter queues (`StatusEventTracker`),
scheduled cancellable dispatch (`CancellableCallQueue`), shared-object
event routing (`SharedObject`), and the dispatch protocol classes
(`CommandDispatchProtocol`, `EventDispatchProtocol`,
`CallDispatchProtocol`).

Python dictionaries are modelled as association lists with
replace-in-place insertion (matching dict key-update semantics) and
remove-all-occurrences deletion; Twisted deferreds are modelled by
identifiers, with `callback` / `errback` invocations recorded as explicit
effects, and the one-shot discipline of `Deferred.callback` (raising
`AlreadyCalledError` on a second call) modelled where the code relies on
it.  Side effects (messages sent through the muxer, log diagnostics,
connection closing) are recorded as an effect trace.  External
collaborators that are not part of `dispatch.py` — the AMF0 codec, the
reactor, wall-clock session time — appear as parameters or as
uninterpreted constructors.
-/

namespace Twimp

/-! ## Association lists standing for Python dicts -/

/-- Lookup of the first binding of a key (Python dict `get`). -/
def alistLookup {α β : Type} [DecidableEq α] (k : α) : List (α × β) → Option β
  | [] => none
  | (k', v) :: rest => if k' = k then some v else alistLookup k rest

/-- Dict assignment `d[k] = v`: replace the first binding in place,
append at the end when the key is new (dict insertion order). -/
def alistInsert {α β : Type} [DecidableEq α] (k : α) (v : β) :
    List (α × β) → List (α × β)
  | [] => [(k, v)]
  | (k', v') :: rest =>
    if k' = k then (k, v) :: rest else (k', v') :: alistInsert k v rest

/-- Dict deletion `d.pop(k, None)` / `del d[k]` (removes every binding;
dicts never hold duplicate keys, so this agrees with Python on all
reachable states). -/
def alistRemove {α β : Type} [DecidableEq α] (k : α) (l : List (α × β)) :
    List (α × β) :=
  l.filter (fun p => p.1 ≠ k)

/-- Key membership (Python `has_key` / `in`). -/
def alistMem {α β : Type} [DecidableEq α] (k : α) (l : List (α × β)) : Bool :=
  (alistLookup k l).isSome

theorem alistLookup_insert_self {α β : Type} [DecidableEq α]
    (k : α) (v : β) (l : List (α × β)) :
    alistLookup k (alistInsert k v l) = some v := by
  induction l with
  | nil => simp [alistInsert, alistLookup]
  | cons p rest ih =>
    by_cases h : p.1 = k
    · simp [alistInsert, alistLookup, h]
    · simpa [alistInsert, alistLookup, h] using ih

theorem alistLookup_insert_other {α β : Type} [DecidableEq α]
    (k k' : α) (v : β) (l : List (α × β)) (hne : k' ≠ k) :
    alistLookup k' (alistInsert k v l) = alistLookup k' l := by
  have hkk : ¬(k = k') := fun h => hne h.symm
  induction l with
  | nil => simp [alistInsert, alistLookup, hkk]
  | cons p rest ih =>
    obtain ⟨pk, pv⟩ := p
    by_cases h : pk = k
    · subst h
      simp [alistInsert, alistLookup, hkk]
    · by_cases h2 : pk = k'
      · simp [alistInsert, alistLookup, h, h2, hne]
      · simp [alistInsert, alistLookup, h, h2, ih]

theorem alistLookup_remove_self {α β : Type} [DecidableEq α]
    (k : α) (l : List (α × β)) :
    alistLookup k (alistRemove k l) = none := by
  induction l with
  | nil => simp [alistRemove, alistLookup]
  | cons p rest ih =>
    obtain ⟨pk, pv⟩ := p
    by_cases h : pk = k
    · simpa [alistRemove, List.filter_cons, h] using ih
    · simpa [alistRemove, List.filter_cons, h, alistLookup] using ih

theorem alistLookup_remove_other {α β : Type} [DecidableEq α]
    (k k' : α) (l : List (α × β)) (hne : k' ≠ k) :
    alistLookup k' (alistRemove k l) = alistLookup k' l := by
  induction l with
  | nil => simp [alistRemove, alistLookup]
  | cons p rest ih =>
    obtain ⟨pk, pv⟩ := p
    by_cases h : pk = k
    · subst h
      have hpk : ¬(pk = k') := fun h2 => hne h2.symm
      simpa [alistRemove, List.filter_cons, alistLookup, hpk] using ih
    · by_cases h2 : pk = k'
      · simp [alistRemove, List.filter_cons, h, alistLookup, h2, hne]
      · simpa [alistRemove, List.filter_cons, h, alistLookup, h2] using ih

/-- The keys of an association list, in order. -/
def alistKeys {α β : Type} (l : List (α × β)) : List α :=
  l.map Prod.fst

theorem alistKeys_insert_of_mem {α β : Type} [DecidableEq α]
    (k : α) (v : β) (l : List (α × β)) (h : alistMem k l = true) :
    alistKeys (alistInsert k v l) = alistKeys l := by
  induction l with
  | nil => simp [alistMem, alistLookup] at h
  | cons p rest ih =>
    by_cases hk : p.1 = k
    · simp [alistInsert, alistKeys, hk]
    · have h' : alistMem k rest = true := by
        simpa [alistMem, alistLookup, hk] using h
      simpa [alistInsert, alistKeys, hk] using congrArg (p.1 :: ·) (ih h')

/-! ## Basic wire-level data -/

/-- Decoded AMF0 argument values flowing through command messages.
Object payloads appear only with flat string fields in this layer
(the synthesized NetStream.Failed error object). -/
inductive Value where
  | null
  | num (n : Int)
  | str (s : String)
  | obj (fields : List (String × String))
deriving DecidableEq, Repr

/-- RTMP message-type tags (`twimp.chunks`, external to this file): AMF0
command and AMF0 shared-object message types. Only their identity
matters here. -/
def MSG_COMMAND : Nat := 20

def MSG_SO : Nat := 19

/-- Shared-object event type tags (`twimp.const`, external to this file).
Only their distinctness matters for the dispatch table. -/
def SO_EVENT_TYPE_USE : Nat := 1

def SO_EVENT_TYPE_RELEASE : Nat := 2

def SO_EVENT_TYPE_CHANGE : Nat := 4

def SO_EVENT_TYPE_MESSAGE : Nat := 6

def SO_EVENT_TYPE_CLEAR : Nat := 8

def SO_EVENT_TYPE_DELETE : Nat := 9

def SO_EVENT_TYPE_USE_SUCCESS : Nat := 11

/-- An incoming or outgoing shared-object event: a type tag and a raw
data payload (a byte string; only its content/emptiness is inspected
by this layer). -/
structure SOEvent where
  type : Nat
  data : List Nat
deriving DecidableEq, Repr

/-- Encoded message bodies.  `twimp.amf0.encode` and
`encode_so_update` are the external codec; they are modelled as injective
constructors so that theorems can speak about what was encoded. -/
inductive Body where
  | amfCommand (cmd : String) (transId : Nat) (args : List Value)
  | soUpdate (name : String) (flags : List Nat) (events : List SOEvent)
deriving DecidableEq, Repr

/-- `encode_amf(*args)` = AMF0-encode a command (name, transaction id,
arguments). -/
def encode_amf (cmd : String) (transId : Nat) (args : List Value) : Body :=
  Body.amfCommand cmd transId args

/-- Deferreds are identified by numbers; their resolutions are recorded
as effects. -/
abbrev DeferredId := Nat

/-- An abstract disconnect reason (the `reason` Failure passed to
`connectionLost`). -/
abbrev Reason := Nat

/-- An incoming `onStatus` info object: `codeAttr` is its `code`
attribute (`none` models the attribute being absent, which raises
`AttributeError` on access); `tag` distinguishes otherwise-equal
events. -/
structure StatusInfo where
  codeAttr : Option String
  tag : Nat
deriving DecidableEq, Repr

/-- Values passed to `Deferred.callback`. -/
inductive DVal where
  | resultValues (args : List Value)
  | statusInfo (i : StatusInfo)
  | soSelf (name : String)
  | soChanged (next : DeferredId) (key : String) (v : Value)
  | soDeleted (next : DeferredId) (key : String)
deriving DecidableEq, Repr

/-- Errors passed to `Deferred.errback`. -/
inductive ErrVal where
  | commandResultError (args : List Value)
  | protocolContractError
  | unexpectedStatusError (i : StatusInfo)
  | disconnected (reason : Reason)
deriving DecidableEq, Repr

/-- Observable side effects of the dispatch layer, in program order. -/
inductive Effect where
  | sendMessage (ts : Nat) (msgType : Nat) (msId : Nat) (body : Body)
  | callback (d : DeferredId) (v : DVal)
  | errback (d : DeferredId) (e : ErrVal)
  | diagUnexpectedResult (ts msId transId : Nat) (args : List Value)
  | diagUnexpectedError (ts msId transId : Nat) (args : List Value)
  | diagUnhandledOnStatus (ts msId : Nat) (info : StatusInfo)
  | diagUnknownSharedObject (ts msId : Nat) (objName : String)
  | logAborted (msg : String)
  | logWarning (msg : String)
  | soRegistryAdd (name : String)
  | soRegistryRemove (name : String)
  | closeConnection
deriving DecidableEq, Repr

/-! ## DeferredTracker -/

/-- `DeferredTracker`: pending result deferreds keyed by
`(stream id, transaction id)`, plus the per-stream next transaction id. -/
structure DeferredTracker where
  pending : List (Nat × List (Nat × DeferredId))
  nextTransId : List (Nat × Nat)
deriving DecidableEq, Repr

namespace DeferredTracker

/-- `DeferredTracker.init_trans_id`. -/
def init_trans_id : Nat := 1

/-- A fresh tracker (`__init__`). -/
def empty : DeferredTracker := { pending := [], nextTransId := [] }

/-- `next_trans(key)`: return the stream's counter (defaulting to
`init_trans_id`) and advance it. -/
def next_trans (t : DeferredTracker) (key : Nat) : Nat × DeferredTracker :=
  let transId := (alistLookup key t.nextTransId).getD init_trans_id
  (transId, { t with nextTransId := alistInsert key (transId + 1) t.nextTransId })

/-- `push_deferred(key, trans_id, d)`. -/
def push_deferred (t : DeferredTracker) (key transId : Nat) (d : DeferredId) :
    DeferredTracker :=
  let keyQueue := (alistLookup key t.pending).getD []
  { t with pending := alistInsert key (alistInsert transId d keyQueue) t.pending }

/-- `pop_deferred(key, trans_id)`: remove and return the deferred, or
`none`.  Note the Python guard `if key_queue:` — an *empty* inner dict
left behind by earlier pops is falsy and also yields a miss. -/
def pop_deferred (t : DeferredTracker) (key transId : Nat) :
    Option DeferredId × DeferredTracker :=
  match alistLookup key t.pending with
  | none => (none, t)
  | some keyQueue =>
    if keyQueue.isEmpty then (none, t)
    else
      match alistLookup transId keyQueue with
      | none => (none, t)
      | some d =>
        (some d,
         { t with pending := alistInsert key (alistRemove transId keyQueue) t.pending })

/-- `iter_all()`: every still-pending `(stream id, deferred)`. -/
def iter_all (t : DeferredTracker) : List (Nat × DeferredId) :=
  t.pending.flatMap (fun p => p.2.map (fun q => (p.1, q.2)))

/-- `clear()`. -/
def clear (t : DeferredTracker) : DeferredTracker := { t with pending := [] }

/-- `reset()`. -/
def reset (t : DeferredTracker) : DeferredTracker := { t with nextTransId := [] }

end DeferredTracker

/-! ## StatusEventTracker -/

/-- Keys of the status tracker: `EventDispatchProtocol._onStatus_ev_key`
builds `(None, ms_id)` tuples. -/
abbrev EvKey := Option Nat × Nat

/-- `StatusEventTracker`: per key, a FIFO deque of
`(expected code or None, deferred)` waiters. -/
structure StatusEventTracker where
  eventCallbacks : List (EvKey × List (Option String × DeferredId))
deriving DecidableEq, Repr

namespace StatusEventTracker

/-- A fresh tracker (`__init__`). -/
def empty : StatusEventTracker := { eventCallbacks := [] }

/-- `add(key, code, d)`: append a waiter to the key's deque, creating
the deque if needed. -/
def add (t : StatusEventTracker) (key : EvKey) (code : Option String)
    (d : DeferredId) : StatusEventTracker :=
  let q := (alistLookup key t.eventCallbacks).getD []
  { eventCallbacks := alistInsert key (q ++ [(code, d)]) t.eventCallbacks }

/-- `pop(key)`: pop the oldest waiter for `key`, if the deque exists and
is non-empty (`if q:`). -/
def pop (t : StatusEventTracker) (key : EvKey) :
    Option (Option String × DeferredId) × StatusEventTracker :=
  match alistLookup key t.eventCallbacks with
  | none => (none, t)
  | some [] => (none, t)
  | some (w :: rest) =>
    (some w, { eventCallbacks := alistInsert key rest t.eventCallbacks })

/-- `pop_all()`: all waiters (in deque order per key), emptying the
tracker. -/
def pop_all (t : StatusEventTracker) :
    List (Option String × DeferredId) × StatusEventTracker :=
  (t.eventCallbacks.flatMap Prod.snd, empty)

/-- The deferred that a `dispatch` resolved, if any. -/
inductive Outcome where
  | missed
  | fulfilled (d : DeferredId) (info : StatusInfo)
  | failedContract (d : DeferredId)
  | failedUnexpected (d : DeferredId) (info : StatusInfo)
deriving DecidableEq, Repr

/-- The deferred a dispatch outcome touched. -/
def Outcome.target : Outcome → Option DeferredId
  | .missed => none
  | .fulfilled d _ => some d
  | .failedContract d => some d
  | .failedUnexpected d _ => some d

/-- `dispatch(key, info, miss_h)`: pop the oldest waiter; a miss invokes
the miss handler; otherwise the waiter is fulfilled when its expected
code is `None` or equals `info.code`, failed with `UnexpectedStatusError`
on a mismatch, and failed with `ProtocolContractError` when `info` has
no `code` attribute. -/
def dispatch (t : StatusEventTracker) (key : EvKey) (info : StatusInfo) :
    Outcome × StatusEventTracker :=
  match pop t key with
  | (none, t') => (.missed, t')
  | (some (code, d), t') =>
    match info.codeAttr with
    | none => (.failedContract d, t')
    | some evtCode =>
      match code with
      | none => (.fulfilled d info, t')
      | some c =>
        if evtCode = c then (.fulfilled d info, t')
        else (.failedUnexpected d info, t')

/-- `cancel_all(reason)`: pop every waiter and, when a (truthy) reason is
given, errback each with it. -/
def cancel_all (t : StatusEventTracker) (reason : Option Reason) :
    List Effect × StatusEventTracker :=
  let (waiting, t') := pop_all t
  match reason with
  | none => ([], t')
  | some r => (waiting.map (fun w => Effect.errback w.2 (.disconnected r)), t')

end StatusEventTracker

/-! ## SharedObject -/

/-- Python exceptions that can escape the shared-object event handlers:
`assert` failures, Twisted's `AlreadyCalledError` (raised by
`Deferred.callback` on an already-fired deferred), and the `IndexError`
from taking `items()[0]` of an empty mapping. -/
inductive PyError where
  | assertionError (msg : String)
  | alreadyCalledError
  | indexError
deriving DecidableEq, Repr

/-- The external AMF0 codec operations used by `SharedObject`
(`amf0.decode_so_event_change_data`, which may fail with a
`DecoderError`, and `amf0._decode_string`).  Passed as a parameter:
the codec is outside this layer. -/
structure Codec where
  decodeChange : List Nat → Except Unit (List (String × Value))
  decodeString : List Nat → String

/-- A `SharedObject`: name, persistence flag, and the three notification
deferreds (`_readyd`, `_deleted`, `_changed`).  `readydCalled` is the
Twisted `called` flag of `_readyd`; `nextD` supplies fresh deferred ids
for the renewable `_changed` / `_deleted` channels. -/
structure SharedObject where
  name : String
  persistance : Bool
  readyd : DeferredId
  readydCalled : Bool
  deleted : DeferredId
  changed : DeferredId
  nextD : Nat
deriving DecidableEq, Repr

namespace SharedObject

/-- `SharedObject.__init__(name, persistance)`: fresh deferreds for
ready/deleted/changed. -/
def make (name : String) (persistance : Bool) : SharedObject :=
  { name := name, persistance := persistance,
    readyd := 0, readydCalled := false,
    deleted := 1, changed := 2, nextD := 3 }

/-- `onChange(key_name, value)`: fire the current `_changed` deferred
with `(new channel, key, value)` and replace the channel. -/
def onChange (so : SharedObject) (keyName : String) (v : Value) :
    SharedObject × List Effect :=
  let d := so.changed
  let so' := { so with changed := so.nextD, nextD := so.nextD + 1 }
  (so', [Effect.callback d (.soChanged so'.changed keyName v)])

/-- `onChangeRaw(event)`: decode the change payload; a `DecoderError` is
logged and the event dropped; `items()[0]` of an empty mapping raises
`IndexError`. -/
def onChangeRaw (codec : Codec) (so : SharedObject) (data : List Nat) :
    Except PyError (SharedObject × List Effect) :=
  match codec.decodeChange data with
  | .error _ => .ok (so, [Effect.logWarning "Failed to decode event data"])
  | .ok [] => .error .indexError
  | .ok ((k, v) :: _) => .ok (so.onChange k v)

/-- `onClear(event)`: asserts the payload is empty; otherwise nothing. -/
def onClear (so : SharedObject) (data : List Nat) :
    Except PyError (SharedObject × List Effect) :=
  if data.length = 0 then .ok (so, [])
  else .error (.assertionError "Event data of clear must be empty")

/-- `onDelete(key_name)`: fire the current `_deleted` deferred with
`(new channel, key)` and replace the channel. -/
def onDelete (so : SharedObject) (keyName : String) :
    SharedObject × List Effect :=
  let d := so.deleted
  let so' := { so with deleted := so.nextD, nextD := so.nextD + 1 }
  (so', [Effect.callback d (.soDeleted so'.deleted keyName)])

/-- `onDeleteRaw(event)`: asserts the payload is non-empty, then decodes
the key name. -/
def onDeleteRaw (codec : Codec) (so : SharedObject) (data : List Nat) :
    Except PyError (SharedObject × List Effect) :=
  if data.length ≠ 0 then .ok (so.onDelete (codec.decodeString data))
  else .error (.assertionError "Cannot call onDelete without data")

/-- `onMessage(event)`: explicitly unhandled, accepted and discarded. -/
def onMessage (so : SharedObject) (_data : List Nat) :
    Except PyError (SharedObject × List Effect) :=
  .ok (so, [])

/-- `onUseSuccess(event)`: asserts the payload is empty, then fires
`_readyd` with the object itself.  `Deferred.callback` on the
already-fired `_readyd` raises `AlreadyCalledError`. -/
def onUseSuccess (so : SharedObject) (data : List Nat) :
    Except PyError (SharedObject × List Effect) :=
  if data.length ≠ 0 then
    .error (.assertionError "Event data of success must be empty")
  else if so.readydCalled then .error .alreadyCalledError
  else .ok ({ so with readydCalled := true },
            [Effect.callback so.readyd (.soSelf so.name)])

/-- `onEvent(event)`: route through the `_dispatcher` table by event
type; unknown types are logged by `unhandledEvent`. -/
def onEvent (codec : Codec) (so : SharedObject) (e : SOEvent) :
    Except PyError (SharedObject × List Effect) :=
  if e.type = SO_EVENT_TYPE_CHANGE then onChangeRaw codec so e.data
  else if e.type = SO_EVENT_TYPE_CLEAR then so.onClear e.data
  else if e.type = SO_EVENT_TYPE_MESSAGE then so.onMessage e.data
  else if e.type = SO_EVENT_TYPE_DELETE then onDeleteRaw codec so e.data
  else if e.type = SO_EVENT_TYPE_USE_SUCCESS then so.onUseSuccess e.data
  else .ok (so, [Effect.logWarning "SharedObject cannot parse event"])

end SharedObject

/-! ## CancellableCallQueue and a small reactor model -/

/-- The pending-but-unfired calls a dispatcher can schedule. -/
inductive Call where
  | handlerWrapper (cmd : String) (ts msId : Nat) (args : List Value)
  | unknownCommand (cmd : String) (ts msId : Nat) (args : List Value)
deriving DecidableEq, Repr

/-- One reactor delayed call: its activity flag (false once cancelled or
fired) and the wrapped call. -/
structure ReactorCall where
  active : Bool
  call : Call
deriving DecidableEq, Repr

/-- A minimal model of the Twisted reactor's delayed calls: a table of
`clid → (active, call)`.  A delayed call can fire only while `active`;
`cancel` clears the flag, so a cancelled call never executes. -/
structure Reactor where
  calls : List (Nat × ReactorCall)
  nextClid : Nat
deriving DecidableEq, Repr

namespace Reactor

/-- `reactor.callLater(delay, f, *args)`: register an active delayed
call under a fresh id. -/
def callLater (r : Reactor) (c : Call) : Nat × Reactor :=
  (r.nextClid,
   { calls := alistInsert r.nextClid ⟨true, c⟩ r.calls,
     nextClid := r.nextClid + 1 })

/-- `clid.cancel()`: deactivate the delayed call. -/
def cancel (r : Reactor) (clid : Nat) : Reactor :=
  match alistLookup clid r.calls with
  | none => r
  | some rc => { r with calls := alistInsert clid { rc with active := false } r.calls }

/-- `clid.active()`. -/
def isActive (r : Reactor) (clid : Nat) : Bool :=
  match alistLookup clid r.calls with
  | none => false
  | some rc => rc.active

/-- A delayed call can fire only while active. -/
def canFire (r : Reactor) (clid : Nat) : Bool := r.isActive clid

end Reactor

/-- `CancellableCallQueue`: maps internal call keys to reactor delayed
calls so that all of them can be cancelled at once. -/
structure CancellableCallQueue where
  pending : List (Nat × Nat)
  nextKey : Nat
deriving DecidableEq, Repr

namespace CancellableCallQueue

/-- A fresh queue (`__init__`). -/
def empty : CancellableCallQueue := { pending := [], nextKey := 0 }

/-- `callLater(delay, f, *args)`: schedule through the reactor and
remember the delayed-call handle under a fresh key. -/
def callLater (q : CancellableCallQueue) (r : Reactor) (c : Call) :
    (Nat × Nat) × CancellableCallQueue × Reactor :=
  let callKey := q.nextKey
  let (clid, r') := r.callLater c
  ((callKey, clid),
   { pending := alistInsert callKey clid q.pending, nextKey := callKey + 1 },
   r')

/-- `cancel_all()`: clear the registry and cancel every still-active
delayed call. -/
def cancel_all (q : CancellableCallQueue) (r : Reactor) :
    CancellableCallQueue × Reactor :=
  let remaining := q.pending
  ({ q with pending := [] },
   remaining.foldl
     (fun r p => if r.isActive p.2 then r.cancel p.2 else r) r)

end CancellableCallQueue

/-! ## The dispatch protocol state

`CallDispatchProtocol` extends `EventDispatchProtocol` extends
`CommandDispatchProtocol`; one state structure carries all their
per-connection registries.  `nextDeferredId` supplies fresh ids for the
deferreds the protocol itself creates.  Session time
(`ms_time_wrapped(self.session_time())`) is wall-clock derived and is
passed in as a `ts` parameter where the code computes it. -/
structure CDPState where
  ccQueue : CancellableCallQueue
  callTracker : DeferredTracker
  sharedObjs : List (String × SharedObject)
  events : StatusEventTracker
  nextDeferredId : Nat
deriving DecidableEq, Repr

namespace CDPState

/-- A freshly constructed protocol (`__init__` chain). -/
def initial : CDPState :=
  { ccQueue := CancellableCallQueue.empty,
    callTracker := DeferredTracker.empty,
    sharedObjs := [],
    events := StatusEventTracker.empty,
    nextDeferredId := 100 }

end CDPState

/-- Command names with a bound `command_<name>` handler on
`CallDispatchProtocol` (methods defined in `dispatch.py`). -/
def commandHandlerNames : List String := ["_result", "_error", "onStatus"]

/-- `doCommand(ts, ms_id, args)`: look up `command_<cmd>`; schedule the
handler (or the unknown-command path) through the cancellable call queue
with delay 0 — dispatch is always deferred past receipt. -/
def doCommand (st : CDPState) (r : Reactor) (ts msId : Nat) (cmd : String)
    (rest : List Value) : CDPState × Reactor :=
  let call := if cmd ∈ commandHandlerNames
              then Call.handlerWrapper cmd ts msId rest
              else Call.unknownCommand cmd ts msId rest
  let (_, q', r') := st.ccQueue.callLater r call
  ({ st with ccQueue := q' }, r')

/-- `command__result(ts, ms_id, trans_id, *args)`: pop the tracked
deferred for `(ms_id, trans_id)` and fulfill it with the reply values;
on a miss, report `unexpectedCallResult`. -/
def command__result (st : CDPState) (ts msId transId : Nat)
    (args : List Value) : CDPState × List Effect :=
  let (d?, tracker') := st.callTracker.pop_deferred msId transId
  match d? with
  | some d =>
    ({ st with callTracker := tracker' },
     [Effect.callback d (.resultValues args)])
  | none =>
    ({ st with callTracker := tracker' },
     [Effect.diagUnexpectedResult ts msId transId args])

/-- `command__error(ts, ms_id, trans_id, *args)`: pop the tracked
deferred and fail it with `CommandResultError(*args)`; on a miss, report
`unexpectedCallError`. -/
def command__error (st : CDPState) (ts msId transId : Nat)
    (args : List Value) : CDPState × List Effect :=
  let (d?, tracker') := st.callTracker.pop_deferred msId transId
  match d? with
  | some d =>
    ({ st with callTracker := tracker' },
     [Effect.errback d (.commandResultError args)])
  | none =>
    ({ st with callTracker := tracker' },
     [Effect.diagUnexpectedError ts msId transId args])

/-- `doSharedObj` event loop body: apply each event to the shared object
in order; a Python exception escaping a handler aborts the loop,
leaving the updates of the earlier events in place. -/
def runSOEvents (codec : Codec) (so : SharedObject) :
    List SOEvent → SharedObject × List Effect × Option PyError
  | [] => (so, [], none)
  | e :: rest =>
    match so.onEvent codec e with
    | .error pe => (so, [], some pe)
    | .ok (so', effs) =>
      let (so'', effs', pe) := runSOEvents codec so' rest
      (so'', effs ++ effs', pe)

/-- `doSharedObj(ts, ms_id, obj_name, events)`: an unknown object name
is reported via `unknownSharedObject`; otherwise the events are fed to
the object's `onEvent` in order (an escaping exception is returned as
the final component). -/
def doSharedObj (codec : Codec) (st : CDPState) (ts msId : Nat)
    (objName : String) (events : List SOEvent) :
    CDPState × List Effect × Option PyError :=
  match alistLookup objName st.sharedObjs with
  | none => (st, [Effect.diagUnknownSharedObject ts msId objName], none)
  | some so =>
    let (so', effs, pe) := runSOEvents codec so events
    ({ st with sharedObjs := alistInsert objName so' st.sharedObjs }, effs, pe)

/-- `_send_command(ts, ms_id, body, track_id)`: for a non-zero tracking
id, create a deferred, register it with the call tracker, send the
message and return the deferred; for `track_id == 0`, just send. -/
def _send_command (st : CDPState) (msId : Nat) (body : Body)
    (trackId : Nat) : CDPState × List Effect × Option DeferredId :=
  if trackId ≠ 0 then
    let d := st.nextDeferredId
    let tracker' := st.callTracker.push_deferred msId trackId d
    ({ st with callTracker := tracker', nextDeferredId := d + 1 },
     [Effect.sendMessage 0 MSG_COMMAND msId body], some d)
  else
    (st, [Effect.sendMessage 0 MSG_COMMAND msId body], none)

/-- `_sendRemote(ms_id, cmd, args, kwargs, track)`: transaction id 0
unless tracking, in which case the stream's next transaction id is
allocated; encode and send (the code hardcodes timestamp 0). -/
def _sendRemote (st : CDPState) (msId : Nat) (cmd : String)
    (args : List Value) (track : Bool) :
    CDPState × List Effect × Option DeferredId :=
  let (transId, tracker1) :=
    if track then st.callTracker.next_trans msId else (0, st.callTracker)
  let encodedArgs := encode_amf cmd transId args
  _send_command { st with callTracker := tracker1 } msId encodedArgs transId

/-- `callRemote(ms_id, cmd, *args)`: tracked send. -/
def callRemote (st : CDPState) (msId : Nat) (cmd : String)
    (args : List Value) : CDPState × List Effect × Option DeferredId :=
  _sendRemote st msId cmd args true

/-- `signalRemote(ms_id, cmd, *args)`: untracked send, no result
expected. -/
def signalRemote (st : CDPState) (msId : Nat) (cmd : String)
    (args : List Value) : CDPState × List Effect × Option DeferredId :=
  _sendRemote st msId cmd args false

/-- SO subscription flag bytes (`flags` in use/releaseSharedObject). -/
def soFlagsDefault : List Nat := [0, 0, 0, 0, 0, 0, 0, 0]

/-- SO subscription flag bytes for a persistent object. -/
def soFlagsPersistent : List Nat := [0, 0, 0, 2, 0, 0, 0, 0]

/-- The result of a `useSharedObject` call: immediate failure
(`SystemError` inside `inlineCallbacks` fails the returned deferred at
once), or a coroutine suspended waiting for the object's `_readyd`. -/
inductive UseSOResult where
  | failed (msg : String)
  | awaitingReady (readyd : DeferredId)
deriving DecidableEq, Repr

/-- `useSharedObject(ms_id, obj_name, persistance)`: fail immediately if
the name is already in use; otherwise encode the `USE` subscription,
register the new object, send the shared-object message, and await the
object's ready deferred.  `ts` is `ms_time_wrapped(session_time())`. -/
def useSharedObject (st : CDPState) (ts msId : Nat) (objName : String)
    (persistance : Bool) : CDPState × List Effect × UseSOResult :=
  if alistMem objName st.sharedObjs then
    (st, [], .failed "Shared object already in use")
  else
    let events := [SOEvent.mk SO_EVENT_TYPE_USE []]
    let flags := if persistance then soFlagsPersistent else soFlagsDefault
    let body := Body.soUpdate objName flags events
    let so := SharedObject.make objName persistance
    let st' := { st with sharedObjs := alistInsert objName so st.sharedObjs }
    (st',
     [Effect.soRegistryAdd objName,
      Effect.sendMessage ts MSG_SO msId body],
     .awaitingReady so.readyd)

/-- `releaseSharedObject(ms_id, obj_name)`: fail immediately if the name
is not in use; otherwise remove it from the registry (before the send)
and send the `RELEASE` event with the object's stored persistence
flag. -/
def releaseSharedObject (st : CDPState) (ts msId : Nat) (objName : String) :
    CDPState × List Effect × Except String Unit :=
  match alistLookup objName st.sharedObjs with
  | none => (st, [], .error "Shared object does not exists")
  | some so =>
    let events := [SOEvent.mk SO_EVENT_TYPE_RELEASE []]
    let flags := if so.persistance then soFlagsPersistent else soFlagsDefault
    let body := Body.soUpdate objName flags events
    let st' := { st with sharedObjs := alistRemove objName st.sharedObjs }
    (st',
     [Effect.soRegistryRemove objName,
      Effect.sendMessage ts MSG_SO msId body],
     .ok ())

/-- `EventDispatchProtocol._onStatus_ev_key(ms_id)`. -/
def _onStatus_ev_key (msId : Nat) : EvKey := (none, msId)

/-- `waitStatus(ms_id, code)`: enqueue a fresh waiter deferred for the
stream's status key and return it. -/
def waitStatus (st : CDPState) (msId : Nat) (code : Option String) :
    CDPState × DeferredId :=
  let d := st.nextDeferredId
  let events' := st.events.add (_onStatus_ev_key msId) code d
  ({ st with events := events', nextDeferredId := d + 1 }, d)

/-- `command_onStatus(ts, ms_id, _trans_id, _none, info)`: dispatch the
status info through the tracker; a miss runs `unhandledOnStatus`. -/
def command_onStatus (st : CDPState) (ts msId : Nat) (info : StatusInfo) :
    CDPState × List Effect :=
  let (outcome, ev') := st.events.dispatch (_onStatus_ev_key msId) info
  let st' := { st with events := ev' }
  match outcome with
  | .missed => (st', [Effect.diagUnhandledOnStatus ts msId info])
  | .fulfilled d i => (st', [Effect.callback d (.statusInfo i)])
  | .failedContract d => (st', [Effect.errback d .protocolContractError])
  | .failedUnexpected d i => (st', [Effect.errback d (.unexpectedStatusError i)])

/-- `EventDispatchProtocol.connectionLost(reason)` (which chains to
`CommandDispatchProtocol.connectionLost`): fail every status waiter with
the reason, cancel all scheduled calls, then drain the call tracker and
fail every pending call deferred with the reason. -/
def connectionLost (st : CDPState) (r : Reactor) (reason : Reason) :
    CDPState × Reactor × List Effect :=
  let (statusEffs, events') := st.events.cancel_all (some reason)
  let (ccq', r') := st.ccQueue.cancel_all r
  let pendingCalls := st.callTracker.iter_all
  let tracker' := st.callTracker.clear
  let callEffs :=
    pendingCalls.map (fun p => Effect.errback p.2 (.disconnected reason))
  ({ st with events := events', ccQueue := ccq', callTracker := tracker' },
   r', statusEffs ++ callEffs)

/-! ## CallDispatchProtocol remote-call outcome processing -/

/-- A handler return value, as Python sees its type: a tuple/list, or
any other single value. -/
inductive PyResult where
  | single (v : Value)
  | seq (vs : List Value)
deriving DecidableEq, Repr

/-- `if not isinstance(result, (tuple, list)): result = (result,)`. -/
def wrapResult : PyResult → List Value
  | .single v => [v]
  | .seq vs => vs

/-- The eventual outcome of the deferred obtained from a remote-method
handler in `unknownCommandType` (via `maybeDeferred`); method bodies are
application code outside this layer.  `callResultError` is modelled from
the spec: `CallResultError` (from `twimp.error`, not part of this file)
carries wire arguments (`get_error_args()`) and a fatal flag
(`is_fatal`). -/
inductive HandlerOutcome where
  | success (r : PyResult)
  | callAborted (msg : String)
  | callResultError (errorArgs : List Value) (fatal : Bool)
  | otherFailure (descr : String)
deriving DecidableEq, Repr

/-- The synthesized generic failure object of `_remote_handler_eb`. -/
def netStreamFailedObj (descr : String) : Value :=
  Value.obj [("code", "NetStream.Failed"), ("level", "error"),
             ("description", descr)]

/-- The callback/errback chain `unknownCommandType` attaches to a remote
handler's deferred: `_remote_handler_cb` (only when `trans_id` is
non-zero), then `_remote_abort_handler_eb`, then `_remote_handler_eb`.
`ts` is the sender's wrapped session time at reply time. -/
def processRemoteOutcome (ts msId transId : Nat) (outcome : HandlerOutcome) :
    List Effect :=
  match outcome with
  | .success r =>
    if transId ≠ 0 then
      [Effect.sendMessage ts MSG_COMMAND msId
        (encode_amf "_result" transId (wrapResult r))]
    else []
  | .callAborted m => [Effect.logAborted m]
  | .callResultError errArgs fatal =>
    [Effect.sendMessage ts MSG_COMMAND msId
      (encode_amf "_error" transId errArgs)] ++
    (if fatal then [Effect.closeConnection] else [])
  | .otherFailure descr =>
    [Effect.sendMessage ts MSG_COMMAND msId
      (encode_amf "_error" transId [Value.null, netStreamFailedObj descr])]

/-! ## Helper lemmas -/

theorem alistLookup_isEmpty_false {α β : Type} [DecidableEq α]
    {k : α} {v : β} {l : List (α × β)} (h : alistLookup k l = some v) :
    l.isEmpty = false := by
  cases l with
  | nil => simp [alistLookup] at h
  | cons a rest => simp [List.isEmpty]

/-- A hit of `pop_deferred`: the deferred is returned and its entry
removed from the inner per-stream dict. -/
theorem pop_deferred_hit (t : DeferredTracker) (k tid : Nat)
    (kq : List (Nat × DeferredId)) (d : DeferredId)
    (hq : alistLookup k t.pending = some kq)
    (hd : alistLookup tid kq = some d) :
    t.pop_deferred k tid =
      (some d,
       { t with pending := alistInsert k (alistRemove tid kq) t.pending }) := by
  simp [DeferredTracker.pop_deferred, hq, alistLookup_isEmpty_false hd, hd]

/-- After a hit, a second pop of the same pair misses and leaves the
tracker unchanged. -/
theorem pop_deferred_after_hit (t : DeferredTracker) (k tid : Nat)
    (kq : List (Nat × DeferredId)) :
    (({ t with pending := alistInsert k (alistRemove tid kq) t.pending } :
        DeferredTracker).pop_deferred k tid).1 = none := by
  have hl : alistLookup k (alistInsert k (alistRemove tid kq) t.pending) =
      some (alistRemove tid kq) := alistLookup_insert_self ..
  by_cases he : (alistRemove tid kq).isEmpty
  · simp [DeferredTracker.pop_deferred, hl, he]
  · simp [DeferredTracker.pop_deferred, hl, he, alistLookup_remove_self]

/-- A missing pop returns the tracker unchanged. -/
theorem pop_deferred_miss (t : DeferredTracker) (k tid : Nat)
    (h : (t.pop_deferred k tid).1 = none) :
    t.pop_deferred k tid = (none, t) := by
  unfold DeferredTracker.pop_deferred at *
  cases hq : alistLookup k t.pending with
  | none => simp [hq]
  | some kq =>
    by_cases he : kq.isEmpty
    · simp [hq, he]
    · cases hd : alistLookup tid kq with
      | none => simp [hq, he, hd]
      | some d => simp [hq, he, hd] at h

/-- Reduction of `command__result` on a hit. -/
theorem command__result_hit (st : CDPState) (ts msId transId : Nat)
    (args : List Value) (d : DeferredId) (tr' : DeferredTracker)
    (h : st.callTracker.pop_deferred msId transId = (some d, tr')) :
    command__result st ts msId transId args =
      ({ st with callTracker := tr' },
       [Effect.callback d (.resultValues args)]) := by
  simp [command__result, h]

/-- Reduction of `command__result` on a miss. -/
theorem command__result_miss (st : CDPState) (ts msId transId : Nat)
    (args : List Value)
    (h : (st.callTracker.pop_deferred msId transId).1 = none) :
    command__result st ts msId transId args =
      (st, [Effect.diagUnexpectedResult ts msId transId args]) := by
  simp [command__result, pop_deferred_miss _ _ _ h]

/-- Reduction of `command__error` on a hit. -/
theorem command__error_hit (st : CDPState) (ts msId transId : Nat)
    (args : List Value) (d : DeferredId) (tr' : DeferredTracker)
    (h : st.callTracker.pop_deferred msId transId = (some d, tr')) :
    command__error st ts msId transId args =
      ({ st with callTracker := tr' },
       [Effect.errback d (.commandResultError args)]) := by
  simp [command__error, h]

/-- Reduction of `command__error` on a miss. -/
theorem command__error_miss (st : CDPState) (ts msId transId : Nat)
    (args : List Value)
    (h : (st.callTracker.pop_deferred msId transId).1 = none) :
    command__error st ts msId transId args =
      (st, [Effect.diagUnexpectedError ts msId transId args]) := by
  simp [command__error, pop_deferred_miss _ _ _ h]

/-! ## Claim theorems -/

/-- The protocol state after the call tracker's entry
`(msId, transId)` (inside inner dict `kq`) has been popped. -/
def popHitState (st : CDPState) (msId transId : Nat)
    (kq : List (Nat × DeferredId)) : CDPState :=
  { st with
    callTracker :=
      { st.callTracker with
        pending := alistInsert msId (alistRemove transId kq)
                     st.callTracker.pending } }

/-- C1: an incoming `_result` / `_error` reply on stream `msId` with
transaction id `transId` that has a pending entry `d` fulfills (resp.
fails with a `CommandResultError` built from the values) that deferred
exactly once and removes the entry, so a second reply for the same pair
takes the miss path with the tracker unchanged; a reply with no pending
entry invokes the unexpected-result / unexpected-error diagnostic
exactly once, raises nothing, and changes no tracker state. -/
theorem C1_reply_resolved_exactly_once
    (st st2 : CDPState) (ts ts2 ts3 msId transId : Nat)
    (args args2 args3 : List Value)
    (kq : List (Nat × DeferredId)) (d : DeferredId)
    (hq : alistLookup msId st.callTracker.pending = some kq)
    (hd : alistLookup transId kq = some d)
    (hmiss : (st2.callTracker.pop_deferred msId transId).1 = none) :
    (command__result st ts msId transId args =
       (popHitState st msId transId kq,
        [Effect.callback d (.resultValues args)])) ∧
    (command__error st ts msId transId args =
       (popHitState st msId transId kq,
        [Effect.errback d (.commandResultError args)])) ∧
    (command__result (popHitState st msId transId kq) ts2 msId transId args2 =
       (popHitState st msId transId kq,
        [Effect.diagUnexpectedResult ts2 msId transId args2])) ∧
    (command__error (popHitState st msId transId kq) ts2 msId transId args2 =
       (popHitState st msId transId kq,
        [Effect.diagUnexpectedError ts2 msId transId args2])) ∧
    (command__result st2 ts3 msId transId args3 =
       (st2, [Effect.diagUnexpectedResult ts3 msId transId args3])) ∧
    (command__error st2 ts3 msId transId args3 =
       (st2, [Effect.diagUnexpectedError ts3 msId transId args3])) := by
  have hpop := pop_deferred_hit st.callTracker msId transId kq d hq hd
  have hafter := pop_deferred_after_hit st.callTracker msId transId kq
  refine ⟨command__result_hit _ _ _ _ _ _ _ hpop,
          command__error_hit _ _ _ _ _ _ _ hpop,
          command__result_miss _ _ _ _ _ hafter,
          command__error_miss _ _ _ _ _ hafter,
          command__result_miss _ _ _ _ _ hmiss,
          command__error_miss _ _ _ _ _ hmiss⟩

/-- Concrete state for the C1 witness: one pending call, deferred 7,
for stream 3, transaction 1. -/
def c1State : CDPState :=
  { CDPState.initial with
    callTracker := { pending := [(3, [(1, 7)])], nextTransId := [(3, 2)] } }

/-- Witness for C1 at stream 3, transaction 1. -/
theorem C1_reply_resolved_exactly_once_witness :
    (alistLookup 3 c1State.callTracker.pending = some [(1, 7)]) ∧
    (alistLookup 1 [((1 : Nat), (7 : DeferredId))] = some 7) ∧
    ((CDPState.initial.callTracker.pop_deferred 3 1).1 = none) ∧
    (command__result c1State 5 3 1 [Value.str "ok"] =
       (popHitState c1State 3 1 [(1, 7)],
        [Effect.callback 7 (.resultValues [Value.str "ok"])])) :=
  ⟨by decide, by decide, by decide,
   (C1_reply_resolved_exactly_once c1State CDPState.initial 5 6 7 3 1
      [Value.str "ok"] [] [] [(1, 7)] 7 (by decide) (by decide)
      (by decide)).1⟩

/-! ### C4: transaction-id allocation -/

/-- `n` successive `next_trans` calls on one stream key, collecting the
allocated transaction ids. -/
def nextTransIter (t : DeferredTracker) (key : Nat) : Nat → List Nat × DeferredTracker
  | 0 => ([], t)
  | n + 1 =>
    let (r, t') := t.next_trans key
    let (rs, t'') := nextTransIter t' key n
    (r :: rs, t'')

theorem nextTransIter_spec (key : Nat) :
    ∀ (n : Nat) (t : DeferredTracker),
      (nextTransIter t key n).1 =
        List.range' ((alistLookup key t.nextTransId).getD 1) n := by
  intro n
  induction n with
  | zero => intro t; rfl
  | succ n ih =>
    intro t
    have hstep :
        (alistLookup key ((t.next_trans key).2).nextTransId).getD 1 =
          (alistLookup key t.nextTransId).getD 1 + 1 := by
      simp [DeferredTracker.next_trans, alistLookup_insert_self,
            DeferredTracker.init_trans_id]
    simp only [nextTransIter, DeferredTracker.next_trans, List.range'_succ]
    have := ih (t.next_trans key).2
    rw [hstep] at this
    simpa [DeferredTracker.next_trans, DeferredTracker.init_trans_id] using this

theorem next_trans_other_key (t : DeferredTracker) (key key' : Nat)
    (h : key' ≠ key) :
    alistLookup key' ((t.next_trans key).2).nextTransId =
      alistLookup key' t.nextTransId := by
  simp [DeferredTracker.next_trans, alistLookup_insert_other _ _ _ _ h]

/-- C4: the per-stream allocator yields `1, 2, 3, …` (on a stream
with counter `c` the next `n` allocations are `c, c+1, …`; from a fresh
tracker they are exactly `1 … n`, so the n-th tracked call gets id `n`),
allocation on one stream leaves every other stream's counter untouched,
`callRemote` registers the freshly allocated id, and `signalRemote`
always sends transaction id 0, registers no entry, and returns no
deferred. -/
theorem C4_transaction_id_allocation
    (st : CDPState) (t : DeferredTracker) (n msId key key' : Nat)
    (cmd : String) (args : List Value) (tid : Nat)
    (hk : key' ≠ key)
    (htid : tid = (alistLookup msId st.callTracker.nextTransId).getD 1)
    (htid0 : tid ≠ 0) :
    ((nextTransIter t key n).1 =
       List.range' ((alistLookup key t.nextTransId).getD 1) n) ∧
    ((nextTransIter DeferredTracker.empty key n).1 = List.range' 1 n) ∧
    (alistLookup key' ((t.next_trans key).2).nextTransId =
       alistLookup key' t.nextTransId) ∧
    (callRemote st msId cmd args =
       ({ st with
          callTracker :=
            ((st.callTracker.next_trans msId).2).push_deferred msId tid
              st.nextDeferredId,
          nextDeferredId := st.nextDeferredId + 1 },
        [Effect.sendMessage 0 MSG_COMMAND msId (encode_amf cmd tid args)],
        some st.nextDeferredId)) ∧
    (signalRemote st msId cmd args =
       (st, [Effect.sendMessage 0 MSG_COMMAND msId (encode_amf cmd 0 args)],
        none)) := by
  subst htid
  refine ⟨nextTransIter_spec key n t, ?_, next_trans_other_key t key key' hk, ?_, ?_⟩
  · simpa [DeferredTracker.empty, alistLookup] using
      nextTransIter_spec key n DeferredTracker.empty
  · simp [callRemote, _sendRemote, _send_command, DeferredTracker.next_trans,
          DeferredTracker.init_trans_id, htid0]
  · simp [signalRemote, _sendRemote, _send_command]

/-- Witness for C4 at stream 3 (fresh counter, so `tid = 1`), with the
allocator iterated 4 times. -/
theorem C4_transaction_id_allocation_witness :
    ((5 : Nat) ≠ 3) ∧
    ((1 : Nat) = (alistLookup 3 CDPState.initial.callTracker.nextTransId).getD 1) ∧
    ((1 : Nat) ≠ 0) ∧
    ((nextTransIter DeferredTracker.empty 3 4).1 = List.range' 1 4) ∧
    (signalRemote CDPState.initial 3 "ping" [] =
       (CDPState.initial,
        [Effect.sendMessage 0 MSG_COMMAND 3 (encode_amf "ping" 0 [])], none)) := by
  have h := C4_transaction_id_allocation CDPState.initial DeferredTracker.empty
    4 3 3 5 "ping" [] 1 (by decide) (by decide) (by decide)
  exact ⟨by decide, by decide, by decide, h.2.1, h.2.2.2.2⟩

/-! ### C5 / C6: status waiter queues -/

/-- A dispatch whose key has a queued waiter at the head resolves
exactly that waiter (whatever the codes) and pops exactly it. -/
theorem dispatch_resolves_head (t : StatusEventTracker) (key : EvKey)
    (info : StatusInfo) (code : Option String) (d : DeferredId)
    (rest : List (Option String × DeferredId))
    (h : alistLookup key t.eventCallbacks = some ((code, d) :: rest)) :
    ((t.dispatch key info).1).target = some d ∧
    (t.dispatch key info).2 =
      { eventCallbacks := alistInsert key rest t.eventCallbacks } := by
  cases hc : info.codeAttr with
  | none =>
    simp [StatusEventTracker.dispatch, StatusEventTracker.pop, h, hc,
          StatusEventTracker.Outcome.target]
  | some ec =>
    cases code with
    | none =>
      simp [StatusEventTracker.dispatch, StatusEventTracker.pop, h, hc,
            StatusEventTracker.Outcome.target]
    | some c =>
      by_cases he : ec = c <;>
        simp [StatusEventTracker.dispatch, StatusEventTracker.pop, h, hc, he,
              StatusEventTracker.Outcome.target]

/-- C5: with waiters `(c1, d1)` then `(c2, d2)` registered in that
order for `key` (whose queue started empty), dispatching two events
resolves `d1` with the first and `d2` with the second regardless of the
events' codes; the first dispatch pops exactly one waiter (leaving
`(c2, d2)` queued), the queue is empty after both, and the queues of any
other key are unaffected at every stage. -/
theorem C5_status_waiters_fifo
    (t : StatusEventTracker) (key key' : EvKey) (c1 c2 : Option String)
    (d1 d2 : DeferredId) (e1 e2 : StatusInfo)
    (hkey : (alistLookup key t.eventCallbacks).getD [] = [])
    (hne : key' ≠ key) :
    ((((t.add key c1 d1).add key c2 d2).dispatch key e1).1).target = some d1 ∧
    ((((((t.add key c1 d1).add key c2 d2).dispatch key e1).2).dispatch key e2).1).target
        = some d2 ∧
    (alistLookup key
       ((((t.add key c1 d1).add key c2 d2).dispatch key e1).2).eventCallbacks
       = some [(c2, d2)]) ∧
    (alistLookup key
       ((((((t.add key c1 d1).add key c2 d2).dispatch key e1).2).dispatch key e2).2).eventCallbacks
       = some []) ∧
    (alistLookup key' (((t.add key c1 d1).add key c2 d2).eventCallbacks)
       = alistLookup key' t.eventCallbacks) ∧
    (alistLookup key'
       ((((t.add key c1 d1).add key c2 d2).dispatch key e1).2).eventCallbacks
       = alistLookup key' t.eventCallbacks) ∧
    (alistLookup key'
       ((((((t.add key c1 d1).add key c2 d2).dispatch key e1).2).dispatch key e2).2).eventCallbacks
       = alistLookup key' t.eventCallbacks) := by
  have h1 : (t.add key c1 d1).eventCallbacks =
      alistInsert key [(c1, d1)] t.eventCallbacks := by
    simp [StatusEventTracker.add, hkey]
  have h2 : ((t.add key c1 d1).add key c2 d2).eventCallbacks =
      alistInsert key [(c1, d1), (c2, d2)]
        (alistInsert key [(c1, d1)] t.eventCallbacks) := by
    simp [StatusEventTracker.add, h1, alistLookup_insert_self, hkey]
  have hl2 : alistLookup key (((t.add key c1 d1).add key c2 d2).eventCallbacks)
      = some [(c1, d1), (c2, d2)] := by
    rw [h2]; exact alistLookup_insert_self ..
  obtain ⟨ht1, he1⟩ :=
    dispatch_resolves_head ((t.add key c1 d1).add key c2 d2) key e1 c1 d1
      [(c2, d2)] hl2
  have hl3 : alistLookup key
      ((((t.add key c1 d1).add key c2 d2).dispatch key e1).2).eventCallbacks
      = some [(c2, d2)] := by
    rw [he1]; exact alistLookup_insert_self ..
  obtain ⟨ht2, he2⟩ :=
    dispatch_resolves_head (((t.add key c1 d1).add key c2 d2).dispatch key e1).2
      key e2 c2 d2 [] hl3
  have hl4 : alistLookup key
      ((((((t.add key c1 d1).add key c2 d2).dispatch key e1).2).dispatch key e2).2).eventCallbacks
      = some [] := by
    rw [he2]; exact alistLookup_insert_self ..
  have hk2 : alistLookup key' (((t.add key c1 d1).add key c2 d2).eventCallbacks)
      = alistLookup key' t.eventCallbacks := by
    rw [h2, alistLookup_insert_other _ _ _ _ hne,
        alistLookup_insert_other _ _ _ _ hne]
  have hk3 : alistLookup key'
      ((((t.add key c1 d1).add key c2 d2).dispatch key e1).2).eventCallbacks
      = alistLookup key' t.eventCallbacks := by
    rw [he1]
    simp only [alistLookup_insert_other _ _ _ _ hne]
    exact hk2
  have hk4 : alistLookup key'
      ((((((t.add key c1 d1).add key c2 d2).dispatch key e1).2).dispatch key e2).2).eventCallbacks
      = alistLookup key' t.eventCallbacks := by
    rw [he2]
    simp only [alistLookup_insert_other _ _ _ _ hne]
    exact hk3
  exact ⟨ht1, ht2, hl3, hl4, hk2, hk3, hk4⟩

/-- Witness for C5: waiters 11 then 12 on stream key `(None, 4)`,
events with unrelated codes. -/
theorem C5_status_waiters_fifo_witness :
    ((alistLookup (_onStatus_ev_key 4)
        StatusEventTracker.empty.eventCallbacks).getD [] = []) ∧
    (((none : Option Nat), (7 : Nat)) ≠ _onStatus_ev_key 4) ∧
    (((((StatusEventTracker.empty.add (_onStatus_ev_key 4) (some "A") 11).add
          (_onStatus_ev_key 4) none 12).dispatch (_onStatus_ev_key 4)
          ⟨some "B", 0⟩).1).target = some 11) := by
  have h := C5_status_waiters_fifo StatusEventTracker.empty
    (_onStatus_ev_key 4) (none, 7) (some "A") none 11 12
    ⟨some "B", 0⟩ ⟨some "C", 1⟩ (by decide) (by decide)
  exact ⟨by decide, by decide, h.1⟩

/-- C6: a dispatched status event delivered to the popped waiter
`(code, d)` fulfills `d` with the event when the expected code is the
wildcard `None` or equals the event's code, fails `d` with an
unexpected-status error carrying the event on a mismatch (the next
queued waiter staying untouched at the head of the queue), and fails
`d` with a protocol-contract error when the event has no `code`
attribute; when no waiter is queued, `command_onStatus` invokes the
unhandled-onStatus miss handler once and resolves no deferred. -/
theorem C6_status_dispatch_policy
    (t : StatusEventTracker) (key : EvKey) (info : StatusInfo)
    (code : Option String) (c ec : String) (d : DeferredId)
    (rest : List (Option String × DeferredId))
    (st : CDPState) (ts msId : Nat) (info2 : StatusInfo)
    (h : alistLookup key t.eventCallbacks = some ((code, d) :: rest))
    (hmiss : (alistLookup (_onStatus_ev_key msId)
        st.events.eventCallbacks).getD [] = []) :
    (info.codeAttr = none →
       t.dispatch key info =
         (.failedContract d,
          { eventCallbacks := alistInsert key rest t.eventCallbacks })) ∧
    (code = none → info.codeAttr = some ec →
       t.dispatch key info =
         (.fulfilled d info,
          { eventCallbacks := alistInsert key rest t.eventCallbacks })) ∧
    (code = some c → info.codeAttr = some ec → ec = c →
       t.dispatch key info =
         (.fulfilled d info,
          { eventCallbacks := alistInsert key rest t.eventCallbacks })) ∧
    (code = some c → info.codeAttr = some ec → ec ≠ c →
       t.dispatch key info =
         (.failedUnexpected d info,
          { eventCallbacks := alistInsert key rest t.eventCallbacks })) ∧
    (alistLookup key (alistInsert key rest t.eventCallbacks) = some rest) ∧
    (command_onStatus st ts msId info2 =
       (st, [Effect.diagUnhandledOnStatus ts msId info2])) := by
  refine ⟨?_, ?_, ?_, ?_, alistLookup_insert_self .., ?_⟩
  · intro hc
    simp [StatusEventTracker.dispatch, StatusEventTracker.pop, h, hc]
  · intro hc he
    subst hc
    simp [StatusEventTracker.dispatch, StatusEventTracker.pop, h, he]
  · intro hc he hec
    subst hc; subst hec
    simp [StatusEventTracker.dispatch, StatusEventTracker.pop, h, he]
  · intro hc he hec
    subst hc
    simp [StatusEventTracker.dispatch, StatusEventTracker.pop, h, he, hec]
  · have hpop : st.events.pop (_onStatus_ev_key msId) =
        (none, st.events) := by
      cases hq : alistLookup (_onStatus_ev_key msId) st.events.eventCallbacks with
      | none => simp [StatusEventTracker.pop, hq]
      | some q =>
        cases q with
        | nil => simp [StatusEventTracker.pop, hq]
        | cons w ws => rw [hq] at hmiss; simp at hmiss
    simp [command_onStatus, StatusEventTracker.dispatch, hpop]

/-- Witness for C6: a mismatch between expected code "A" and event code
"B" on a one-waiter queue, and a miss on a fresh protocol state. -/
theorem C6_status_dispatch_policy_witness :
    (alistLookup ((none, 4) : EvKey)
       [(((none, 4) : EvKey), [((some "A", (11 : DeferredId)))])]
       = some [(some "A", 11)]) ∧
    ((alistLookup (_onStatus_ev_key 5)
        CDPState.initial.events.eventCallbacks).getD [] = []) ∧
    (StatusEventTracker.dispatch
       ⟨[(((none, 4) : EvKey), [(some "A", 11)])]⟩ (none, 4) ⟨some "B", 0⟩ =
       (.failedUnexpected 11 ⟨some "B", 0⟩,
        ⟨alistInsert ((none, 4) : EvKey) []
           [(((none, 4) : EvKey), [(some "A", 11)])]⟩)) ∧
    (command_onStatus CDPState.initial 9 5 ⟨some "B", 0⟩ =
       (CDPState.initial, [Effect.diagUnhandledOnStatus 9 5 ⟨some "B", 0⟩])) := by
  have h := C6_status_dispatch_policy
    ⟨[(((none, 4) : EvKey), [(some "A", 11)])]⟩ (none, 4) ⟨some "B", 0⟩
    (some "A") "A" "B" 11 [] CDPState.initial 9 5 ⟨some "B", 0⟩
    (by decide) (by decide)
  exact ⟨by decide, by decide,
         h.2.2.2.1 rfl rfl (by decide), h.2.2.2.2.2⟩

/-! ### C3 / C9: remote-call outcome handling -/

/-- C3: a failed remote-method handler produces: for the explicit
call-aborted signal, a log entry and no message; for a structured
call-result error, a `_error` reply built from the error's wire
arguments, followed — exactly when the error is fatal — by a connection
close that comes after the send; for any other failure, a generic
`_error` reply carrying the synthesized
`{code: NetStream.Failed, level: error}` object and no connection
close. -/
theorem C3_handler_failure_policy
    (ts msId transId : Nat) (m descr : String) (errArgs : List Value) :
    (processRemoteOutcome ts msId transId (.callAborted m) =
       [Effect.logAborted m]) ∧
    (processRemoteOutcome ts msId transId (.callResultError errArgs true) =
       [Effect.sendMessage ts MSG_COMMAND msId
          (encode_amf "_error" transId errArgs),
        Effect.closeConnection]) ∧
    (processRemoteOutcome ts msId transId (.callResultError errArgs false) =
       [Effect.sendMessage ts MSG_COMMAND msId
          (encode_amf "_error" transId errArgs)]) ∧
    (processRemoteOutcome ts msId transId (.otherFailure descr) =
       [Effect.sendMessage ts MSG_COMMAND msId
          (encode_amf "_error" transId
             [Value.null, netStreamFailedObj descr])]) := by
  refine ⟨rfl, rfl, rfl, rfl⟩

/-- C9: a successful remote-method handler with transaction id > 0
sends a `_result` reply on the call's stream carrying that transaction
id, with a non-sequence result wrapped into a one-element sequence and a
tuple/list result passed through; transaction id 0 suppresses the
reply. -/
theorem C9_handler_success_reply
    (ts msId transId : Nat) (r : PyResult) (v : Value) (vs : List Value)
    (h : transId ≠ 0) :
    (processRemoteOutcome ts msId transId (.success r) =
       [Effect.sendMessage ts MSG_COMMAND msId
          (encode_amf "_result" transId (wrapResult r))]) ∧
    (wrapResult (.single v) = [v]) ∧
    (wrapResult (.seq vs) = vs) ∧
    (processRemoteOutcome ts msId 0 (.success r) = []) := by
  refine ⟨?_, rfl, rfl, rfl⟩
  simp [processRemoteOutcome, h]

/-- Witness for C9 at transaction id 1 with a bare string result. -/
theorem C9_handler_success_reply_witness :
    ((1 : Nat) ≠ 0) ∧
    (processRemoteOutcome 8 3 1 (.success (.single (Value.str "ok"))) =
       [Effect.sendMessage 8 MSG_COMMAND 3
          (encode_amf "_result" 1 [Value.str "ok"])]) :=
  ⟨by decide,
   (C9_handler_success_reply 8 3 1 (.single (Value.str "ok"))
      (Value.str "ok") [] (by decide)).1⟩

/-! ### C7: shared-object USE_SUCCESS -/

/-- A concrete trivial codec for closed evaluations (the codec is not
consulted by USE_SUCCESS events). -/
def trivialCodec : Codec :=
  { decodeChange := fun _ => .error (), decodeString := fun _ => "" }

/-- The `USE_SUCCESS` wire event with empty payload. -/
def useSuccessEvent : SOEvent := { type := SO_EVENT_TYPE_USE_SUCCESS, data := [] }

/-- A fresh shared object for the C7 theorems. -/
def c7SO : SharedObject := SharedObject.make "obj" false

/-- C7 counterexample to the claim as stated: after the first
`USE_SUCCESS` has fulfilled the ready deferred, a second `USE_SUCCESS`
is *not* ignored: `_readyd.callback(self)` raises Twisted's
`AlreadyCalledError`, which escapes `onEvent` — contradicting "any
further USE_SUCCESS occurrence … is ignored/logged and does not
raise". -/
theorem C7_counterexample_second_use_success_raises :
    (SharedObject.onEvent trivialCodec c7SO useSuccessEvent =
       .ok ({ c7SO with readydCalled := true },
            [Effect.callback c7SO.readyd (.soSelf "obj")])) ∧
    (SharedObject.onEvent trivialCodec { c7SO with readydCalled := true }
       useSuccessEvent = .error .alreadyCalledError) := by
  constructor <;> rfl

/-- C7 amended: the first `USE_SUCCESS` event with empty payload
on a shared object whose ready deferred has not yet fired fulfills the
ready notification exactly once with the object itself and leaves the
object otherwise unchanged; a further `USE_SUCCESS` raises
`AlreadyCalledError` (propagating out of `onEvent`, with no state
change) rather than being ignored or logged. -/
theorem C7_use_success_once_then_raises
    (codec : Codec) (so : SharedObject) (hnot : so.readydCalled = false) :
    (SharedObject.onEvent codec so
       { type := SO_EVENT_TYPE_USE_SUCCESS, data := [] } =
       .ok ({ so with readydCalled := true },
            [Effect.callback so.readyd (.soSelf so.name)])) ∧
    (SharedObject.onEvent codec { so with readydCalled := true }
       { type := SO_EVENT_TYPE_USE_SUCCESS, data := [] } =
       .error .alreadyCalledError) := by
  constructor
  · simp [SharedObject.onEvent, SharedObject.onUseSuccess,
          SO_EVENT_TYPE_USE_SUCCESS, SO_EVENT_TYPE_CHANGE, SO_EVENT_TYPE_CLEAR,
          SO_EVENT_TYPE_MESSAGE, SO_EVENT_TYPE_DELETE, hnot]
  · simp [SharedObject.onEvent, SharedObject.onUseSuccess,
          SO_EVENT_TYPE_USE_SUCCESS, SO_EVENT_TYPE_CHANGE, SO_EVENT_TYPE_CLEAR,
          SO_EVENT_TYPE_MESSAGE, SO_EVENT_TYPE_DELETE]

/-- Witness for amended C7 on a fresh shared object. -/
theorem C7_use_success_once_then_raises_witness :
    (c7SO.readydCalled = false) ∧
    (SharedObject.onEvent trivialCodec { c7SO with readydCalled := true }
       { type := SO_EVENT_TYPE_USE_SUCCESS, data := [] } =
       .error .alreadyCalledError) :=
  ⟨rfl, (C7_use_success_once_then_raises trivialCodec c7SO rfl).2⟩

/-! ### C8 / C10: shared-object use/release -/

/-- C8: `useSharedObject` on a name already registered fails
immediately — no message sent, no effects at all, state (and so the
registry) unchanged; `releaseSharedObject` on a name not registered
likewise fails immediately with no effects and no state change. -/
theorem C8_use_release_immediate_failure
    (st : CDPState) (ts ts2 msId msId2 : Nat) (name name2 : String) (p : Bool)
    (hin : alistMem name st.sharedObjs = true)
    (hout : alistMem name2 st.sharedObjs = false) :
    (useSharedObject st ts msId name p =
       (st, [], .failed "Shared object already in use")) ∧
    (releaseSharedObject st ts2 msId2 name2 =
       (st, [], .error "Shared object does not exists")) := by
  constructor
  · simp [useSharedObject, hin]
  · have hnone : alistLookup name2 st.sharedObjs = none := by
      cases hl : alistLookup name2 st.sharedObjs with
      | none => rfl
      | some so => rw [alistMem, hl] at hout; simp at hout
    simp [releaseSharedObject, hnone]

/-- Witness for C8: name "a" in use, name "b" not. -/
theorem C8_use_release_immediate_failure_witness :
    (alistMem "a" [("a", SharedObject.make "a" false)] = true) ∧
    (alistMem "b" [("a", SharedObject.make "a" false)] = false) ∧
    (useSharedObject
       { CDPState.initial with sharedObjs := [("a", SharedObject.make "a" false)] }
       0 3 "a" false =
       ({ CDPState.initial with
          sharedObjs := [("a", SharedObject.make "a" false)] },
        [], .failed "Shared object already in use")) :=
  ⟨by decide, by decide,
   (C8_use_release_immediate_failure
      { CDPState.initial with sharedObjs := [("a", SharedObject.make "a" false)] }
      0 1 3 4 "a" "b" false (by decide) (by decide)).1⟩

/-! ### C10: registry update ordering and persistence -/

theorem command__result_sharedObjs (st : CDPState) (ts msId transId : Nat)
    (args : List Value) :
    (command__result st ts msId transId args).1.sharedObjs = st.sharedObjs := by
  cases hp : st.callTracker.pop_deferred msId transId with
  | mk d? tr' => cases d? <;> simp [command__result, hp]

theorem command__error_sharedObjs (st : CDPState) (ts msId transId : Nat)
    (args : List Value) :
    (command__error st ts msId transId args).1.sharedObjs = st.sharedObjs := by
  cases hp : st.callTracker.pop_deferred msId transId with
  | mk d? tr' => cases d? <;> simp [command__error, hp]

theorem command_onStatus_sharedObjs (st : CDPState) (ts msId : Nat)
    (info : StatusInfo) :
    (command_onStatus st ts msId info).1.sharedObjs = st.sharedObjs := by
  cases hd : st.events.dispatch (_onStatus_ev_key msId) info with
  | mk o ev' => cases o <;> simp [command_onStatus, hd]

theorem connectionLost_sharedObjs (st : CDPState) (r : Reactor)
    (reason : Reason) :
    (connectionLost st r reason).1.sharedObjs = st.sharedObjs := rfl

theorem doSharedObj_keys (codec : Codec) (st : CDPState) (ts msId : Nat)
    (nm : String) (evs : List SOEvent) :
    alistKeys (doSharedObj codec st ts msId nm evs).1.sharedObjs =
      alistKeys st.sharedObjs := by
  cases hl : alistLookup nm st.sharedObjs with
  | none => simp [doSharedObj, hl]
  | some so =>
    have hmem : alistMem nm st.sharedObjs = true := by simp [alistMem, hl]
    cases hr : runSOEvents codec so evs with
    | mk so' rest =>
      simp [doSharedObj, hl, hr, alistKeys_insert_of_mem _ _ _ hmem]

/-- C10: `useSharedObject` registers the object before emitting the
subscription send and before the ready notification can resolve (the
result is still awaiting a ready deferred that has not fired), so a
second use of the same name fails immediately even while the first
awaits readiness; `releaseSharedObject` removes the entry before
emitting the release send, making the name immediately reusable; and no
inbound operation (`doSharedObj`, `command__result`, `command__error`,
`command_onStatus`, `connectionLost`) ever removes a registry entry, so
a never-acknowledged subscription stays registered. -/
theorem C10_registry_update_ordering
    (st : CDPState) (r : Reactor) (codec : Codec)
    (ts ts2 ts3 ts4 msId msId2 transId : Nat) (reason : Reason)
    (name nm : String) (p : Bool)
    (args : List Value) (evs : List SOEvent) (info : StatusInfo)
    (hout : alistMem name st.sharedObjs = false) :
    (useSharedObject st ts msId name p =
       ({ st with
          sharedObjs := alistInsert name (SharedObject.make name p)
                          st.sharedObjs },
        [Effect.soRegistryAdd name,
         Effect.sendMessage ts MSG_SO msId
           (Body.soUpdate name
              (if p then soFlagsPersistent else soFlagsDefault)
              [SOEvent.mk SO_EVENT_TYPE_USE []])],
        .awaitingReady (SharedObject.make name p).readyd)) ∧
    ((SharedObject.make name p).readydCalled = false) ∧
    (useSharedObject
       { st with
         sharedObjs := alistInsert name (SharedObject.make name p)
                         st.sharedObjs } ts2 msId name p =
       ({ st with
          sharedObjs := alistInsert name (SharedObject.make name p)
                          st.sharedObjs },
        [], .failed "Shared object already in use")) ∧
    (releaseSharedObject
       { st with
         sharedObjs := alistInsert name (SharedObject.make name p)
                         st.sharedObjs } ts3 msId name =
       ({ st with
          sharedObjs := alistRemove name
                          (alistInsert name (SharedObject.make name p)
                             st.sharedObjs) },
        [Effect.soRegistryRemove name,
         Effect.sendMessage ts3 MSG_SO msId
           (Body.soUpdate name
              (if p then soFlagsPersistent else soFlagsDefault)
              [SOEvent.mk SO_EVENT_TYPE_RELEASE []])],
        .ok ())) ∧
    (alistMem name
       (alistRemove name
          (alistInsert name (SharedObject.make name p) st.sharedObjs))
       = false) ∧
    (alistKeys (doSharedObj codec st ts4 msId2 nm evs).1.sharedObjs =
       alistKeys st.sharedObjs) ∧
    ((command__result st ts4 msId2 transId args).1.sharedObjs =
       st.sharedObjs) ∧
    ((command__error st ts4 msId2 transId args).1.sharedObjs =
       st.sharedObjs) ∧
    ((command_onStatus st ts4 msId2 info).1.sharedObjs = st.sharedObjs) ∧
    ((connectionLost st r reason).1.sharedObjs = st.sharedObjs) := by
  have hl : alistLookup name
      (alistInsert name (SharedObject.make name p) st.sharedObjs) =
      some (SharedObject.make name p) := alistLookup_insert_self ..
  refine ⟨?_, rfl, ?_, ?_, ?_,
          doSharedObj_keys codec st ts4 msId2 nm evs,
          command__result_sharedObjs st ts4 msId2 transId args,
          command__error_sharedObjs st ts4 msId2 transId args,
          command_onStatus_sharedObjs st ts4 msId2 info,
          connectionLost_sharedObjs st r reason⟩
  · simp [useSharedObject, hout]
  · simp [useSharedObject, alistMem, hl]
  · have hp : (SharedObject.make name p).persistance = p := rfl
    simp [releaseSharedObject, hl, hp]
  · simp [alistMem, alistLookup_remove_self]

/-- Witness for C10: fresh state, object "a", non-persistent. -/
theorem C10_registry_update_ordering_witness :
    (alistMem "a" CDPState.initial.sharedObjs = false) ∧
    (useSharedObject CDPState.initial 2 3 "a" false =
       ({ CDPState.initial with
          sharedObjs := alistInsert "a" (SharedObject.make "a" false)
                          CDPState.initial.sharedObjs },
        [Effect.soRegistryAdd "a",
         Effect.sendMessage 2 MSG_SO 3
           (Body.soUpdate "a" soFlagsDefault
              [SOEvent.mk SO_EVENT_TYPE_USE []])],
        .awaitingReady (SharedObject.make "a" false).readyd)) := by
  have h := C10_registry_update_ordering CDPState.initial
    ⟨[], 0⟩ trivialCodec 2 4 5 6 3 3 1 0 "a" "b" false [] [] ⟨none, 0⟩
    (by decide)
  refine ⟨by decide, ?_⟩
  have := h.1
  simpa using this

/-! ### C2: connection-loss teardown -/

theorem isActive_cancel_self (r : Reactor) (c : Nat) :
    Reactor.isActive (if r.isActive c then r.cancel c else r) c = false := by
  by_cases h : r.isActive c = true
  · cases hl : alistLookup c r.calls with
    | none => simp [Reactor.isActive, hl] at h
    | some rc =>
      have hact : rc.active = true := by
        simpa [Reactor.isActive, hl] using h
      simp [h, Reactor.isActive, Reactor.cancel, hl, hact,
            alistLookup_insert_self]
  · rw [Bool.not_eq_true] at h
    simp [h]

theorem isActive_cancelStep_false (r : Reactor) (p : Nat × Nat) (c : Nat)
    (h : r.isActive c = false) :
    Reactor.isActive (if r.isActive p.2 then r.cancel p.2 else r) c = false := by
  by_cases hp : r.isActive p.2 = true
  · by_cases hc : p.2 = c
    · rw [hc] at hp
      rw [hp] at h
      exact absurd h (by simp)
    · cases hl : alistLookup p.2 r.calls with
      | none => simp [hp, Reactor.cancel, hl, h]
      | some rc =>
        have : Reactor.isActive (r.cancel p.2) c = r.isActive c := by
          simp [Reactor.isActive, Reactor.cancel, hl,
                alistLookup_insert_other _ _ _ _ (fun h2 => hc h2.symm)]
        simp [hp, this, h]
  · simp [hp, h]

theorem fold_cancel_preserves (l : List (Nat × Nat)) (c : Nat) :
    ∀ r : Reactor, r.isActive c = false →
      (l.foldl (fun r p => if r.isActive p.2 then r.cancel p.2 else r)
        r).isActive c = false := by
  induction l with
  | nil => intro r h; simpa using h
  | cons p rest ih =>
    intro r h
    exact ih _ (isActive_cancelStep_false r p c h)

theorem fold_cancel_member (l : List (Nat × Nat)) (k c : Nat) :
    ∀ r : Reactor, (k, c) ∈ l →
      (l.foldl (fun r p => if r.isActive p.2 then r.cancel p.2 else r)
        r).isActive c = false := by
  induction l with
  | nil => intro r h; cases h
  | cons p rest ih =>
    intro r h
    rcases List.mem_cons.1 h with heq | hmem
    · rw [← heq]
      exact fold_cancel_preserves rest c _ (isActive_cancel_self r c)
    · exact ih _ hmem

/-- C2: `connectionLost` cancels every scheduled-but-unfired command
dispatch (its reactor delayed call can no longer fire, so its handler
never executes), fails every still-pending tracked call deferred and
every still-pending status waiter — on any stream, for any expected
code — with the disconnect reason, and leaves the transaction tracker,
the status waiter queues and the scheduled-call registry empty. -/
theorem C2_connection_lost_teardown
    (st : CDPState) (r : Reactor) (reason : Reason)
    (k clid msId : Nat) (d dw : DeferredId) (code : Option String)
    (hclid : (k, clid) ∈ st.ccQueue.pending)
    (hd : (msId, d) ∈ st.callTracker.iter_all)
    (hw : (code, dw) ∈ (st.events.pop_all).1) :
    ((connectionLost st r reason).2.1.canFire clid = false) ∧
    (Effect.errback d (.disconnected reason) ∈
       (connectionLost st r reason).2.2) ∧
    (Effect.errback dw (.disconnected reason) ∈
       (connectionLost st r reason).2.2) ∧
    ((connectionLost st r reason).1.callTracker.iter_all = []) ∧
    ((connectionLost st r reason).1.callTracker.pending = []) ∧
    ((connectionLost st r reason).1.events.eventCallbacks = []) ∧
    ((connectionLost st r reason).1.ccQueue.pending = []) := by
  have heff : (connectionLost st r reason).2.2 =
      (st.events.pop_all).1.map
        (fun w => Effect.errback w.2 (.disconnected reason)) ++
      st.callTracker.iter_all.map
        (fun p => Effect.errback p.2 (.disconnected reason)) := rfl
  have hreact : (connectionLost st r reason).2.1 =
      st.ccQueue.pending.foldl
        (fun r p => if r.isActive p.2 then r.cancel p.2 else r) r := rfl
  refine ⟨?_, ?_, ?_, rfl, rfl, rfl, rfl⟩
  · rw [Reactor.canFire, hreact]
    exact fold_cancel_member st.ccQueue.pending k clid r hclid
  · rw [heff]
    exact List.mem_append_right _
      (List.mem_map_of_mem (fun p => Effect.errback p.2 (.disconnected reason)) hd)
  · rw [heff]
    exact List.mem_append_left _
      (List.mem_map_of_mem (fun w => Effect.errback w.2 (.disconnected reason)) hw)

/-- Concrete pre-disconnect state for the C2 witness: one scheduled
dispatch (call key 0, reactor clid 5), one pending tracked call
(stream 3, transaction 1, deferred 7), one status waiter (stream 4,
wildcard code, deferred 9). -/
def c2State : CDPState :=
  { ccQueue := { pending := [(0, 5)], nextKey := 1 },
    callTracker := { pending := [(3, [(1, 7)])], nextTransId := [(3, 2)] },
    sharedObjs := [],
    events := { eventCallbacks := [((none, 4), [(none, 9)])] },
    nextDeferredId := 100 }

/-- The reactor for the C2 witness, holding the active delayed call 5. -/
def c2Reactor : Reactor :=
  { calls := [(5, ⟨true, Call.unknownCommand "f" 0 3 []⟩)], nextClid := 6 }

/-- Witness for C2 at the concrete one-of-each state. -/
theorem C2_connection_lost_teardown_witness :
    (((0 : Nat), (5 : Nat)) ∈ c2State.ccQueue.pending) ∧
    (((3 : Nat), (7 : DeferredId)) ∈ c2State.callTracker.iter_all) ∧
    (((none : Option String), (9 : DeferredId)) ∈ (c2State.events.pop_all).1) ∧
    ((connectionLost c2State c2Reactor 42).2.1.canFire 5 = false) ∧
    (Effect.errback 7 (.disconnected 42) ∈
       (connectionLost c2State c2Reactor 42).2.2) ∧
    ((connectionLost c2State c2Reactor 42).1.callTracker.iter_all = []) := by
  have h := C2_connection_lost_teardown c2State c2Reactor 42 0 5 3 7 9 none
    (by decide) (by decide) (by decide)
  exact ⟨by decide, by decide, by decide, h.1, h.2.1, h.2.2.2.1⟩

end Twimp
